import Mathlib

/-!
Verification development for the commerce-framework synchronization layer.

The development shallowly embeds the parts of the repository the claims are
about: the customer hook module (its default fetcher and `extendHook`), the
wishlist add-item hook module (its default fetcher, `extendHook` and the
guarded `addItem` mutation), and the keyed resource cache the read hooks
subscribe to.  Async function bodies are embedded as free-monad style
computations whose constructors mark the suspension points (`await`s), so
that "raised before any await" and "the transport is never invoked" are
directly statable.
-/

/-- JavaScript value domain distinguishing `undefined`, `null` and proper
values; needed to model optional chaining, nullish coalescing, and the
falsiness test on an object faithfully. -/
inductive Js (α : Type) where
  | undefined : Js α
  | null : Js α
  | value : α → Js α
  deriving DecidableEq

/-- Optional chaining `a?.f`: yields `undefined` whenever the receiver is
`null` or `undefined`. -/
def Js.chain {α β : Type} : Js α → (α → Js β) → Js β
  | .undefined, _ => .undefined
  | .null, _ => .undefined
  | .value a, f => f a

/-- Nullish coalescing `a ?? b`. -/
def Js.coalesce {α : Type} : Js α → Js α → Js α
  | .undefined, b => b
  | .null, b => b
  | .value a, _ => .value a

/-- Whether the value is the JavaScript `undefined`. -/
def Js.isUndefined {α : Type} : Js α → Bool
  | .undefined => true
  | _ => false

/-- The test `!x` for an object-typed JavaScript value: true exactly when
the value is `null` or `undefined` (an object reference is always truthy). -/
def Js.isNullish {α : Type} : Js α → Bool
  | .undefined => true
  | .null => true
  | .value _ => false

/-- Modelled from the spec: the `CommerceError` shape
`{message, code?, status?}` (the class in src/utils/errors is not among the
source files; the spec gives its attributes). -/
structure CommerceError where
  message : String
  code : Option String
  status : Option Nat
  deriving DecidableEq

/-- Modelled from the spec: the authenticated customer entity (api/customers
is not among the source files).  No claim inspects its fields, so a single
opaque-to-the-claims identifier suffices. -/
structure Customer where
  entityId : Nat
  deriving DecidableEq

/-- Modelled from the spec: the customer endpoint response body
(`CustomerData`, api/customers is absent).  The body, when it is an object
at all, optionally carries a `customer` field. -/
structure CustomerData where
  customer : Js Customer

/-- Modelled from the spec: a wishlist/cart item
`{productId, variantId, quantity?}` (api/wishlist is absent; the spec gives
the item field set). -/
structure ItemBody where
  productId : String
  variantId : String
  quantity : Option Nat
  deriving DecidableEq, BEq

/-- The add-item request body `{ item }` built by the wishlist fetcher
(src/example/wishlist/use-add-item.tsx). -/
structure AddItemBody where
  item : ItemBody
  deriving DecidableEq, BEq

/-- Modelled from the spec: the wishlist snapshot returned by the transport
(use-wishlist is not among the source files).  Its precise shape is
irrelevant to every claim; it is modelled as the list of wishlist items. -/
abbrev Wishlist := List ItemBody

/-- The fetcher `options` object, per the in-repo README: "an object that
may have a `query` (if the hook is using GraphQL), a `url`, and a
`method`". -/
structure RequestOptions where
  url : Option String
  method : Option String
  query : Option String
  deriving DecidableEq

/-- The request object handed to the provider transport: the option fields
plus, for the wishlist mutation, a `body` payload. -/
structure RequestSpec where
  url : Option String
  method : Option String
  query : Option String
  body : Option AddItemBody

/-- JavaScript object spread `{...a, ...b}` restricted to option objects:
field by field, a field present in `b` overrides the corresponding field of
`a`; a field absent from `b` falls through to `a`. -/
def mergeOptions (a b : RequestOptions) : RequestOptions :=
  { url := b.url.orElse fun _ => a.url,
    method := b.method.orElse fun _ => a.method,
    query := b.query.orElse fun _ => a.query }

/-- Modelled from the spec: one Resource Cache entry for a key — the cached
data, whether a transport fetch is currently in flight for the key, and the
subscribers enqueued on that in-flight fetch.  (The Resource Cache itself is
not among the source files; §4.2 of the spec describes it.) -/
structure CacheEntry (α : Type) where
  data : Option α
  inflight : Bool
  waiters : List Nat
  deriving DecidableEq

/-- Modelled from the spec: the keyed Resource Cache state under the
single-threaded cooperative scheduling model of §5.  `fetchLog` records, in
order, the keys for which a transport fetch was issued; `delivered` records
each subscriber together with the outcome it resolved with; `nextId`
numbers subscribers.  Unsubscription, eviction and the failure path are not
modelled: the claim settled against this model concerns only subscription,
deduplication and fetch completion. -/
structure Cache (α : Type) where
  entries : List (String × CacheEntry α)
  fetchLog : List String
  delivered : List (Nat × α)
  nextId : Nat

/-- The cache with no entries, no issued fetches and no subscribers. -/
def Cache.empty {α : Type} : Cache α := ⟨[], [], [], 0⟩

def Cache.lookupEntry {α : Type} (c : Cache α) (k : String) : Option (CacheEntry α) :=
  match c.entries.find? fun p => p.1 == k with
  | some p => some p.2
  | none => none

def upsertEntry {α : Type} : List (String × CacheEntry α) → String → CacheEntry α → List (String × CacheEntry α)
  | [], k, e => [(k, e)]
  | p :: t, k, e => if p.1 == k then (k, e) :: t else p :: upsertEntry t k e

/-- Modelled from the spec (§4.2): `subscribe(key)`.  With no entry for the
key, an entry is created and a transport fetch is issued with the new
subscriber enqueued on it.  With a fetch already in flight, the subscriber
is enqueued on it and no duplicate request is issued.  With a cached value
and no fetch in flight, the subscriber resolves from the cache without
fetching.  With an entry holding no data and no fetch in flight, a fetch is
issued. -/
def Cache.subscribe {α : Type} (c : Cache α) (k : String) : Cache α :=
  match c.lookupEntry k with
  | none =>
      { entries := upsertEntry c.entries k { data := none, inflight := true, waiters := [c.nextId] },
        fetchLog := c.fetchLog ++ [k],
        delivered := c.delivered,
        nextId := c.nextId + 1 }
  | some e =>
      if e.inflight then
        { entries := upsertEntry c.entries k { e with waiters := e.waiters ++ [c.nextId] },
          fetchLog := c.fetchLog,
          delivered := c.delivered,
          nextId := c.nextId + 1 }
      else
        match e.data with
        | some d =>
            { entries := c.entries,
              fetchLog := c.fetchLog,
              delivered := c.delivered ++ [(c.nextId, d)],
              nextId := c.nextId + 1 }
        | none =>
            { entries := upsertEntry c.entries k { e with inflight := true, waiters := e.waiters ++ [c.nextId] },
              fetchLog := c.fetchLog ++ [k],
              delivered := c.delivered,
              nextId := c.nextId + 1 }

/-- Modelled from the spec (§4.2, §5): the in-flight fetch for `k` settles
successfully with result `r`; the entry caches the result and every
enqueued subscriber resolves with that single call's outcome.  A completion
for a key with no in-flight fetch changes nothing. -/
def Cache.completeSuccess {α : Type} (c : Cache α) (k : String) (r : α) : Cache α :=
  match c.lookupEntry k with
  | some e =>
      if e.inflight then
        { entries := upsertEntry c.entries k { data := some r, inflight := false, waiters := [] },
          fetchLog := c.fetchLog,
          delivered := c.delivered ++ e.waiters.map fun i => (i, r),
          nextId := c.nextId }
      else c
  | none => c

/-- `n` subscriptions to key `k`, issued back to back before any fetch
completion — the cooperative-scheduling rendering of `n` concurrent
`subscribe(k)` calls. -/
def Cache.subscribeN {α : Type} (k : String) : Nat → Cache α → Cache α
  | 0, c => c
  | n + 1, c => (Cache.subscribeN k n c).subscribe k

namespace UseCustomer

/-- The provider transport as the customer fetcher sees it: it receives the
request object and yields the response body, which may be `null` or
`undefined` or carry the customer. -/
abbrev Fetch := RequestSpec → Js CustomerData

/-- `HookFetcher<Customer | null>`: `(options, input, fetch)`; the customer
hook has no input. -/
abbrev HookFetcher := RequestOptions → Unit → Fetch → Js Customer

/-- `defaultOpts` of the customer module: `{url, method}`. -/
def defaultOpts : RequestOptions :=
  { url := some "/api/bigcommerce/customers", method := some "GET", query := none }

/-- The request object `{...defaultOpts, ...options}` the default customer
fetcher hands to `fetch` (no body). -/
def requestSpec (options : RequestOptions) : RequestSpec :=
  { url := (mergeOptions defaultOpts options).url,
    method := (mergeOptions defaultOpts options).method,
    query := (mergeOptions defaultOpts options).query,
    body := none }

/-- The body normalization `data?.customer ?? null` applied to the awaited
response. -/
def fetchResult (data : Js CustomerData) : Js Customer :=
  (data.chain CustomerData.customer).coalesce Js.null

/-- The default customer fetcher:
`const data = await fetch({...defaultOpts, ...options}); return data?.customer ?? null`. -/
def fetcher (options : RequestOptions) (_ : Unit) (fetch : Fetch) : Js Customer :=
  fetchResult (fetch (requestSpec options))

/-- Modelled from the spec: the SWR cache-policy option object (the SWR
library type is external to the repository).  It is modelled with the
focus-revalidation toggle named by the source together with one further
representative policy field; a `none` field is a field the caller left
unspecified. -/
structure SwrOptions where
  revalidateOnFocus : Option Bool
  refreshInterval : Option Nat
  deriving DecidableEq, BEq

/-- A customer hook as produced by `extendHook(customFetcher, swrOptions?)`:
it is determined by the fetcher it is bound to and the SWR options it was
given. -/
structure Hook where
  customFetcher : HookFetcher
  swrOptions : Option SwrOptions

/-- `extendHook(customFetcher, swrOptions?)` builds the hook bound to
`customFetcher` and `swrOptions`. -/
def extendHook (customFetcher : HookFetcher) (swrOptions : Option SwrOptions) : Hook :=
  { customFetcher := customFetcher, swrOptions := swrOptions }

/-- `useCustomer.extend = extendHook`: the `extend` property of every hook
is the module-level `extendHook`; its receiver does not occur in the
construction. -/
def Hook.extend (_h : Hook) (customFetcher : HookFetcher) (swrOptions : Option SwrOptions) : Hook :=
  extendHook customFetcher swrOptions

/-- The SWR option object the hook binds at run time:
`{ revalidateOnFocus: false, ...swrOptions }` — the spread of the supplied
options over the hook-level base object. -/
def boundSwrOptions (h : Hook) : SwrOptions :=
  match h.swrOptions with
  | none => { revalidateOnFocus := some false, refreshInterval := none }
  | some s =>
      { revalidateOnFocus := s.revalidateOnFocus.orElse fun _ => some false,
        refreshInterval := s.refreshInterval }

/-- Modelled from the spec: `useCommerceCustomer` (src/use-customer is not
among the source files).  Per the in-repo README, the bound fetcher is
invoked with the hook-level option defaults, the (empty) input and the
provider transport set by the CommerceProvider. -/
def Hook.run (h : Hook) (fetch : Fetch) : Js Customer :=
  h.customFetcher defaultOpts () fetch

/-- State-passing embedding of `extendHook` against an explicit world (a
resource-cache state and a transport-invocation log): the body of
`extendHook` only defines `useCustomer`, attaches `extend` to it and
returns it — it contains no transport call and no cache operation, so both
world components pass through unchanged. -/
def extendHookW (cacheState : Cache (Js CustomerData)) (netLog : List RequestSpec)
    (customFetcher : HookFetcher) (swrOptions : Option SwrOptions) :
    Cache (Js CustomerData) × List RequestSpec × Hook :=
  (cacheState, netLog, extendHook customFetcher swrOptions)

/-- `export default extendHook(fetcher)`: the default customer hook. -/
def defaultHook : Hook := extendHook fetcher none

end UseCustomer

namespace UseAddItem

/-- The provider transport as the wishlist fetcher sees it. -/
abbrev Fetch := RequestSpec → Wishlist

/-- `HookFetcher<Wishlist, AddItemBody>`: `(options, { item }, fetch)`. -/
abbrev HookFetcher := RequestOptions → AddItemBody → Fetch → Wishlist

/-- `AddItemInput = ItemBody`. -/
abbrev AddItemInput := ItemBody

/-- `defaultOpts` of the wishlist add-item module: `{url, method}`. -/
def defaultOpts : RequestOptions :=
  { url := some "/api/bigcommerce/wishlist", method := some "POST", query := none }

/-- The request object `{...defaultOpts, ...options, body: { item }}` the
default wishlist fetcher hands to `fetch`. -/
def requestSpec (options : RequestOptions) (b : AddItemBody) : RequestSpec :=
  { url := (mergeOptions defaultOpts options).url,
    method := (mergeOptions defaultOpts options).method,
    query := (mergeOptions defaultOpts options).query,
    body := some { item := b.item } }

/-- The default wishlist add-item fetcher:
`fetch({...defaultOpts, ...options, body: { item }})`. -/
def fetcher (options : RequestOptions) (b : AddItemBody) (fetch : Fetch) : Wishlist :=
  fetch (requestSpec options b)

/-- A wishlist add-item hook as produced by `extendHook(customFetcher)`:
it is determined by the fetcher it is bound to (the module takes no SWR
options). -/
structure Hook where
  customFetcher : HookFetcher

/-- `extendHook(customFetcher)` builds the hook bound to `customFetcher`. -/
def extendHook (customFetcher : HookFetcher) : Hook :=
  { customFetcher := customFetcher }

/-- `useAddItem.extend = extendHook`: the `extend` property of every hook is
the module-level `extendHook`; its receiver does not occur in the
construction. -/
def Hook.extend (_h : Hook) (customFetcher : HookFetcher) : Hook :=
  extendHook customFetcher

/-- Modelled from the spec: `useWishlistAddItem` (src/wishlist/use-add-item
is not among the source files).  Per the in-repo README, `fn` invokes the
bound fetcher with the hook-level option defaults, the input and the
provider transport set by the CommerceProvider. -/
def Hook.run (h : Hook) (fetch : Fetch) (b : AddItemBody) : Wishlist :=
  h.customFetcher defaultOpts b fetch

/-- `export default extendHook(fetcher)`: the default wishlist add-item
hook. -/
def defaultHook : Hook := extendHook fetcher

/-- The body of the async `addItem` function as a computation whose
constructors mark its suspension points: `awaitFn` is `await fn(...)`,
`awaitRevalidate` is `await revalidate()`, `throwErr` is a synchronous
`throw` reached before any suspension point below it, and `done` is the
promise resolving. -/
inductive Comp (α : Type) where
  | throwErr : CommerceError → Comp α
  | awaitFn : AddItemBody → (Wishlist → Comp α) → Comp α
  | awaitRevalidate : (Unit → Comp α) → Comp α
  | done : α → Comp α

/-- The `addItem` closure of the wishlist hook: with no signed customer it
throws `CommerceError{message: "Signed customer not found"}` synchronously;
otherwise it awaits `fn({ item: input })`, then awaits `revalidate()`, then
resolves with the data `fn` returned. -/
def addItem (customer : Js Customer) (input : AddItemInput) : Comp Wishlist :=
  if customer.isNullish then
    Comp.throwErr { message := "Signed customer not found", code := none, status := none }
  else
    Comp.awaitFn { item := input } fun data =>
      Comp.awaitRevalidate fun _ =>
        Comp.done data

/-- The observable effects of running an `addItem` computation: transport
calls through `fn` and wishlist-key revalidations. -/
inductive MutEffect where
  | fnCall : AddItemBody → MutEffect
  | revalidate : MutEffect
  deriving DecidableEq

/-- Success-path interpreter of an `addItem` computation against a transport
semantics `fn`: it yields the ordered list of effects that completed before
the promise settled, and the settled outcome. -/
def runComp {α : Type} (fn : AddItemBody → Wishlist) : Comp α → List MutEffect × Except CommerceError α
  | .throwErr e => ([], Except.error e)
  | .awaitFn b k =>
      let p := runComp fn (k (fn b))
      (MutEffect.fnCall b :: p.1, p.2)
  | .awaitRevalidate k =>
      let p := runComp fn (k ())
      (MutEffect.revalidate :: p.1, p.2)
  | .done a => ([], Except.ok a)

end UseAddItem

/-- A concrete wishlist item used by the counterexamples. -/
def itemA : ItemBody := { productId := "p1", variantId := "v1", quantity := none }

/-- A concrete non-empty wishlist snapshot. -/
def wishlistA : Wishlist := [itemA]

/-- A concrete empty wishlist snapshot, distinct from `wishlistA`. -/
def wishlistB : Wishlist := []

/-- A concrete first custom transport: it ignores its arguments and always
returns `wishlistA` — so anything that reaches `transportA`, directly or
through a wrapper, returns `wishlistA`. -/
def transportA : UseAddItem.HookFetcher := fun _ _ _ => wishlistA

/-- A concrete provider transport returning `wishlistB`. -/
def providerFetchB : UseAddItem.Fetch := fun _ => wishlistB

/-- A concrete custom customer fetcher. -/
def customerFetcherNull : UseCustomer.HookFetcher := fun _ _ _ => Js.null

/-- Concrete SWR options turning focus revalidation on. -/
def swrFocusTrue : UseCustomer.SwrOptions :=
  { revalidateOnFocus := some true, refreshInterval := none }

/-- A concrete already-extended customer hook bound to non-default options:
its bound option object has `revalidateOnFocus: true`. -/
def hookFocusTrue : UseCustomer.Hook :=
  UseCustomer.extendHook customerFetcherNull (some swrFocusTrue)

/-- Concrete extra options that specify only `refreshInterval`. -/
def extraRefreshOnly : UseCustomer.SwrOptions :=
  { revalidateOnFocus := none, refreshInterval := some 5000 }

/-- Claim C1: with no authenticated customer present (the customer value is
`null` or `undefined`), the wishlist `addItem` operation is — before any
suspension point — the synchronous throw of
`CommerceError{message: "Signed customer not found"}`: the computation is
the `throwErr` constructor itself, under no `await` constructor; and
interpreting it against any transport semantics performs no effect at all
(in particular the transport/fetcher is never invoked) and settles with
exactly that error. -/
theorem wishlist_add_item_rejects_without_customer (input : UseAddItem.AddItemInput) :
    (UseAddItem.addItem Js.null input
      = UseAddItem.Comp.throwErr { message := "Signed customer not found", code := none, status := none })
    ∧ (UseAddItem.addItem Js.undefined input
      = UseAddItem.Comp.throwErr { message := "Signed customer not found", code := none, status := none })
    ∧ (∀ fn : AddItemBody → Wishlist,
        UseAddItem.runComp fn (UseAddItem.addItem Js.null input)
          = ([], Except.error { message := "Signed customer not found", code := none, status := none }))
    ∧ (∀ fn : AddItemBody → Wishlist,
        UseAddItem.runComp fn (UseAddItem.addItem Js.undefined input)
          = ([], Except.error { message := "Signed customer not found", code := none, status := none })) :=
  ⟨rfl, rfl, fun _ => rfl, fun _ => rfl⟩

/-- Claim C4: with an authenticated customer present, `addItem` is the
computation that awaits the transport call, then awaits the revalidation of
the wishlist key, and only then resolves; on the success path the
completed-effect trace is the transport call followed by the revalidation,
both completed before the promise settles with the snapshot. -/
theorem add_item_awaits_revalidation_before_resolving
    (c : Customer) (input : UseAddItem.AddItemInput) (fn : AddItemBody → Wishlist) :
    (UseAddItem.addItem (Js.value c) input
      = UseAddItem.Comp.awaitFn { item := input } fun data =>
          UseAddItem.Comp.awaitRevalidate fun _ => UseAddItem.Comp.done data)
    ∧ UseAddItem.runComp fn (UseAddItem.addItem (Js.value c) input)
        = ([UseAddItem.MutEffect.fnCall { item := input }, UseAddItem.MutEffect.revalidate],
           Except.ok (fn { item := input })) :=
  ⟨rfl, rfl⟩

/-- Claim C10: on the success path with an authenticated customer, the
`addItem` promise settles with exactly the snapshot the underlying
fetcher/transport returned for `{ item: input }`, and the last effect
completed before it settles is the awaited revalidation. -/
theorem add_item_returns_transport_snapshot
    (c : Customer) (input : UseAddItem.AddItemInput) (fn : AddItemBody → Wishlist) :
    ((UseAddItem.runComp fn (UseAddItem.addItem (Js.value c) input)).2
        = Except.ok (fn { item := input }))
    ∧ (UseAddItem.runComp fn (UseAddItem.addItem (Js.value c) input)).1.getLast?
        = some UseAddItem.MutEffect.revalidate :=
  ⟨rfl, rfl⟩

/-- Claim C5: for both hook modules, the request object handed to the
transport is the shallow field-by-field merge of the hook-level defaults
and the caller-supplied options: a field present in the caller options
takes precedence, a field absent falls through to the hook default; the
wishlist request additionally carries the `{ item }` payload as its body
(the caller/default option objects carry no body field), and the customer
request carries none. -/
theorem request_spec_caller_precedence (o : RequestOptions) (b : AddItemBody) :
    ((UseAddItem.requestSpec o b).url = (o.url.orElse fun _ => UseAddItem.defaultOpts.url)
      ∧ (UseAddItem.requestSpec o b).method = (o.method.orElse fun _ => UseAddItem.defaultOpts.method)
      ∧ (UseAddItem.requestSpec o b).query = (o.query.orElse fun _ => UseAddItem.defaultOpts.query)
      ∧ (UseAddItem.requestSpec o b).body = some { item := b.item })
    ∧ ((UseCustomer.requestSpec o).url = (o.url.orElse fun _ => UseCustomer.defaultOpts.url)
      ∧ (UseCustomer.requestSpec o).method = (o.method.orElse fun _ => UseCustomer.defaultOpts.method)
      ∧ (UseCustomer.requestSpec o).query = (o.query.orElse fun _ => UseCustomer.defaultOpts.query)
      ∧ (UseCustomer.requestSpec o).body = none)
    ∧ (∀ fetch : UseAddItem.Fetch,
        UseAddItem.fetcher o b fetch = fetch (UseAddItem.requestSpec o b))
    ∧ (∀ fetch : UseCustomer.Fetch,
        UseCustomer.fetcher o () fetch = UseCustomer.fetchResult (fetch (UseCustomer.requestSpec o))) :=
  ⟨⟨rfl, rfl, rfl, rfl⟩, ⟨rfl, rfl, rfl, rfl⟩, fun _ => rfl, fun _ => rfl⟩

/-- Claim C9: the default customer fetcher's normalization
`data?.customer ?? null` resolves with the body's customer when the body is
an object carrying one; resolves with `null` when the body is `null`,
`undefined`, or an object whose customer field is `null` or `undefined`; is
never `undefined`; and the fetcher applies exactly this normalization to
the transport response (it is total — no body shape makes it throw). -/
theorem customer_fetcher_normalizes_body :
    (∀ c : Customer, UseCustomer.fetchResult (Js.value { customer := Js.value c }) = Js.value c)
    ∧ UseCustomer.fetchResult Js.null = Js.null
    ∧ UseCustomer.fetchResult Js.undefined = Js.null
    ∧ UseCustomer.fetchResult (Js.value { customer := Js.null }) = Js.null
    ∧ UseCustomer.fetchResult (Js.value { customer := Js.undefined }) = Js.null
    ∧ (∀ body : Js CustomerData, (UseCustomer.fetchResult body).isUndefined = false)
    ∧ (∀ (o : RequestOptions) (fetch : UseCustomer.Fetch),
        UseCustomer.fetcher o () fetch = UseCustomer.fetchResult (fetch (UseCustomer.requestSpec o))) := by
  refine ⟨fun c => rfl, rfl, rfl, rfl, rfl, ?_, fun o fetch => rfl⟩
  intro body
  cases body with
  | undefined => rfl
  | null => rfl
  | value d =>
      rcases d with ⟨jc⟩
      cases jc <;> rfl

/-- Claim C2 counterexample: extend the hook bound to `transportA` (which
returns `wishlistA` on every argument) with a second custom transport — the
default fetcher, which returns exactly its rawTransport's response for the
derived request.  Were `transportA` still reachable as the rawTransport
argument one level in, the run would yield `wishlistA`; the code passes the
provider transport as rawTransport and discards `transportA` entirely: the
run yields the provider's `wishlistB`, and the doubly-extended hook is
precisely `extendHook` of the second transport alone. -/
theorem extend_layering_counterexample :
    ((UseAddItem.extendHook transportA).extend UseAddItem.fetcher
      = UseAddItem.extendHook UseAddItem.fetcher)
    ∧ (UseAddItem.Hook.run ((UseAddItem.extendHook transportA).extend UseAddItem.fetcher)
        providerFetchB { item := itemA } = wishlistB)
    ∧ ((wishlistB == wishlistA) = false) :=
  ⟨rfl, rfl, rfl⟩

/-- Claim C2 (amended): extending an already-extended hook replaces the
previous custom transport instead of layering it: the extend of
`extendHook f₁` with `f₂` is precisely `extendHook f₂`, with `f₁`
discarded, and at run time `f₂` receives the provider transport — not
`f₁` — as its rawTransport argument. -/
theorem extend_replaces_previous_transport (f₁ f₂ : UseAddItem.HookFetcher) :
    ((UseAddItem.extendHook f₁).extend f₂ = UseAddItem.extendHook f₂)
    ∧ (∀ (fetch : UseAddItem.Fetch) (b : AddItemBody),
        UseAddItem.Hook.run ((UseAddItem.extendHook f₁).extend f₂) fetch b
          = f₂ UseAddItem.defaultOpts b fetch) :=
  ⟨rfl, fun _ _ => rfl⟩

/-- Claim C6 counterexample: `hookFocusTrue` is bound to options whose
resolved focus-revalidation toggle is `true`; `extraRefreshOnly` does not
specify that toggle, so by the claim the extended hook keeps it `true`.
The code merges the extra options into the constant hook-level base
`{revalidateOnFocus: false}` instead of into the receiver's bound options,
so the extended hook's bound toggle is `false`. -/
theorem extend_options_base_counterexample :
    ((UseCustomer.boundSwrOptions
        (hookFocusTrue.extend customerFetcherNull (some extraRefreshOnly))).revalidateOnFocus
      = some false)
    ∧ ((UseCustomer.boundSwrOptions hookFocusTrue).revalidateOnFocus = some true)
    ∧ ((UseCustomer.boundSwrOptions
        (hookFocusTrue.extend customerFetcherNull (some extraRefreshOnly))).refreshInterval
      = some 5000)
    ∧ ((UseCustomer.boundSwrOptions
          (hookFocusTrue.extend customerFetcherNull (some extraRefreshOnly))
        == UseCustomer.boundSwrOptions hookFocusTrue) = false) :=
  ⟨rfl, rfl, rfl, rfl⟩

/-- Claim C6 (amended): the cache-policy options bound by
`extend(f, extraOptions)` are the shallow merge of `extraOptions` into the
hook-level base defaults `{revalidateOnFocus: false}` — an option specified
in `extraOptions` takes the supplied value, an unspecified option falls to
the base default — and the options bound to the hook being extended are not
consulted: the result is independent of the receiver. -/
theorem extend_options_merge_into_base
    (h : UseCustomer.Hook) (f : UseCustomer.HookFetcher) (o : UseCustomer.SwrOptions) :
    ((UseCustomer.boundSwrOptions (h.extend f (some o))).revalidateOnFocus
      = (o.revalidateOnFocus.orElse fun _ => some false))
    ∧ ((UseCustomer.boundSwrOptions (h.extend f (some o))).refreshInterval = o.refreshInterval)
    ∧ (UseCustomer.boundSwrOptions (h.extend f none)
      = { revalidateOnFocus := some false, refreshInterval := none })
    ∧ (∀ h' : UseCustomer.Hook,
        UseCustomer.boundSwrOptions (UseCustomer.Hook.extend h' f (some o))
          = UseCustomer.boundSwrOptions (UseCustomer.Hook.extend h f (some o))) :=
  ⟨rfl, rfl, rfl, fun _ => rfl⟩

/-- Claim C7: `extend` is a pure construction: its state-passing embedding
leaves the cache state and the transport log unchanged; it returns the hook
bound to the given fetcher and options; the returned hook itself again
exposes `extend`, which is again the module-level construction; and the
hook it was called on is neither read nor written — the construction is
independent of its receiver, whose transport and options are immutable
values. -/
theorem extend_is_pure_construction
    (cs : Cache (Js CustomerData)) (netLog : List RequestSpec)
    (h : UseCustomer.Hook) (f : UseCustomer.HookFetcher) (o : Option UseCustomer.SwrOptions) :
    (UseCustomer.extendHookW cs netLog f o = (cs, netLog, UseCustomer.extendHook f o))
    ∧ (UseCustomer.Hook.extend h f o = UseCustomer.extendHook f o)
    ∧ ((UseCustomer.Hook.extend h f o).customFetcher = f)
    ∧ ((UseCustomer.Hook.extend h f o).swrOptions = o)
    ∧ (∀ (f' : UseCustomer.HookFetcher) (o' : Option UseCustomer.SwrOptions),
        (UseCustomer.Hook.extend h f o).extend f' o' = UseCustomer.extendHook f' o')
    ∧ (∀ h' : UseCustomer.Hook, UseCustomer.Hook.extend h' f o = UseCustomer.Hook.extend h f o) :=
  ⟨rfl, rfl, rfl, rfl, fun _ _ => rfl, fun _ => rfl⟩

/-- Claim C8 counterexample: `hookFocusTrue`'s bound cache-policy options
have the focus-revalidation toggle `true`; extending it with the identity
transform (a fetcher forwarding its arguments to the default fetcher) and
no extra options yields a hook whose bound options have the toggle
`false` — the extended hook is distinguishable from the original. -/
theorem extend_identity_counterexample :
    ((UseCustomer.boundSwrOptions
        (hookFocusTrue.extend (fun o i f => UseCustomer.fetcher o i f) none)).revalidateOnFocus
      = some false)
    ∧ ((UseCustomer.boundSwrOptions hookFocusTrue).revalidateOnFocus = some true)
    ∧ ((UseCustomer.boundSwrOptions
          (hookFocusTrue.extend (fun o i f => UseCustomer.fetcher o i f) none)
        == UseCustomer.boundSwrOptions hookFocusTrue) = false) :=
  ⟨rfl, rfl, rfl⟩

/-- Claim C8 (amended): extending any hook with the identity transform
(forwarding to the default fetcher) and no extra options yields exactly the
default hook, independent of the receiver; it is therefore behaviorally
indistinguishable from the hook it was called on precisely when that hook
is the default hook, for which the operation is idempotent. -/
theorem extend_identity_yields_default_hook (h : UseCustomer.Hook) :
    (h.extend (fun o i f => UseCustomer.fetcher o i f) none = UseCustomer.defaultHook)
    ∧ (UseCustomer.boundSwrOptions (h.extend (fun o i f => UseCustomer.fetcher o i f) none)
      = UseCustomer.boundSwrOptions UseCustomer.defaultHook)
    ∧ (∀ fetch : UseCustomer.Fetch,
        (h.extend (fun o i f => UseCustomer.fetcher o i f) none).run fetch
          = UseCustomer.defaultHook.run fetch) :=
  ⟨rfl, rfl, fun _ => rfl⟩

/-- Helper for claim C3: the closed form of `n + 1` back-to-back
subscriptions to key `k` starting from the empty cache — one entry for `k`
with a single fetch in flight, every subscriber enqueued on it, and exactly
one issued fetch in the log. -/
theorem subscribeN_closed_form {α : Type} (k : String) (n : Nat) :
    Cache.subscribeN k (n + 1) (Cache.empty : Cache α) =
      { entries := [(k, { data := none, inflight := true, waiters := List.range (n + 1) })],
        fetchLog := [k],
        delivered := [],
        nextId := n + 1 } := by
  induction n with
  | zero => rfl
  | succ m ih =>
      rw [Cache.subscribeN, ih]
      simp [Cache.subscribe, Cache.lookupEntry, upsertEntry, List.range_succ]

/-- Claim C3: under the cooperative scheduling model, `n` concurrent
`subscribe(k)` calls issued before any completion trigger exactly
`min n 1` transport invocations for `k` — one for any `n ≥ 1`, however
large — and when that single in-flight fetch settles with outcome `r`,
every one of the `n` subscribers resolves with exactly that outcome. -/
theorem cache_dedups_concurrent_subscribes (α : Type) (k : String) (n : Nat) (r : α) :
    ((Cache.subscribeN k n (Cache.empty : Cache α)).fetchLog.count k = min n 1)
    ∧ ((Cache.subscribeN k n (Cache.empty : Cache α)).completeSuccess k r).delivered
        = (List.range n).map fun i => (i, r) := by
  cases n with
  | zero => exact ⟨rfl, rfl⟩
  | succ m =>
      rw [subscribeN_closed_form]
      constructor
      · simp [List.count_cons]
      · simp [Cache.completeSuccess, Cache.lookupEntry]
